import Mathlib

/-!
Shallow embedding of the pattern-rewrite engine in src/src/xdsl/rewriter.py:
`RewriteAction`, `RewritePattern`, `OperandUpdater` and `PatternRewriteWalker`.

Modelling conventions:
* An SSA value is an identity-distinct handle (an integer id plus a type tag),
  following the arena-of-handles reimplementation note of the design document.
* The IR node types `Operation`, `Region` and `Block` are owned by `xdsl.ir`,
  which is not part of the sources; they are modelled from the specification
  (section 6): an operation has ordered operands, ordered results, named
  attributes and owned regions; a region is an ordered list of blocks; a block
  is an ordered list of argument values plus an ordered list of operations; a
  block or region constructed with no arguments is empty, and add_ops,
  add_block and add_region append.
* The Python dict `result_mapping` is modelled as an association list whose
  lookup takes the first binding, with insertion by prepending, so that a later
  insertion for the same key shadows the earlier one exactly as dict assignment
  overwrites.
* Failure (assert failure, IndexError, raise, TypeError) is modelled with
  `Except PyError`; recursion of `rewrite_op`, which the Python code performs
  on the call stack and which need not terminate for a non-terminating
  pattern, is modelled with an explicit fuel parameter whose exhaustion is the
  distinguished error `PyError.fuelOut`.
-/

namespace Xdsl

/-- An SSA value: an identity-distinct handle with a type tag. Equality of the
id is object identity, which is what the engine keys on. -/
structure SSAValue where
  id : Nat
  typ : String
deriving DecidableEq

/-- Errors a Python execution of the engine can raise. `fuelOut` is the model
artifact for exceeding the fuel bound of the embedded recursion. -/
inductive PyError where
  | typeError
  | assertionError
  | indexError
  | exception (msg : String)
  | fuelOut
deriving DecidableEq

mutual
/-- An operation: a kind name, ordered operand values (references), ordered
result values (owned), named attributes and owned regions. Modelled from the
specification, section 6; the engine never creates results on an existing
operation, so the result list doubles as the identity of a surviving node. -/
inductive Operation : Type where
  | mk : String → List SSAValue → List SSAValue → List (String × String) →
      List Region → Operation

/-- A region: an ordered list of exclusively owned blocks. -/
inductive Region : Type where
  | mk : List Block → Region

/-- A block: owned argument values plus an ordered list of owned operations. -/
inductive Block : Type where
  | mk : List SSAValue → List Operation → Block
end

def Operation.name : Operation → String
  | .mk n _ _ _ _ => n

def Operation.operands : Operation → List SSAValue
  | .mk _ o _ _ _ => o

def Operation.results : Operation → List SSAValue
  | .mk _ _ r _ _ => r

def Operation.attributes : Operation → List (String × String)
  | .mk _ _ _ a _ => a

def Operation.regions : Operation → List Region
  | .mk _ _ _ _ r => r

def Region.blocks : Region → List Block
  | .mk bs => bs

def Block.args : Block → List SSAValue
  | .mk a _ => a

def Block.ops : Block → List Operation
  | .mk _ o => o

/-- Name of the designated module root operation kind. Modelled from the
specification: ModuleOp lives in `xdsl.dialects.builtin`, outside the sources;
the entry point only tests membership in that kind. -/
def ModuleOpName : String := "builtin.module"

/-- Action that a single rewrite may execute: the replacement operation list
and the replacement result values (rewriter.py, class RewriteAction). -/
structure RewriteAction where
  new_ops : List Operation
  new_results : List SSAValue

/-- Constructor of RewriteAction: when no explicit result list is supplied the
results default to those of the last new operation, or to the empty list when
there are no new operations (rewriter.py, RewriteAction.__init__). -/
def RewriteAction.make (new_ops : List Operation)
    (new_results : Option (List SSAValue)) : RewriteAction :=
  match new_results with
  | some rs => ⟨new_ops, rs⟩
  | none =>
    match new_ops.getLast? with
    | none => ⟨new_ops, []⟩
    | some last => ⟨new_ops, last.results⟩

/-- A rewrite pattern, as the engine consumes it: a pure function of the
operation and the potential new operand values, returning none on no match
(rewriter.py, RewritePattern.match_and_rewrite). -/
def RewritePattern := Operation → List SSAValue → Option RewriteAction

/-- Lookup in the identity-keyed mapping: first binding wins. -/
def dictGet : List (SSAValue × SSAValue) → SSAValue → Option SSAValue
  | [], _ => none
  | (k, v) :: rest, key => if k = key then some v else dictGet rest key

/-- Insertion into the identity-keyed mapping: prepending, so that with
first-binding lookup it models dict assignment overwriting the key. -/
def dictInsert (m : List (SSAValue × SSAValue)) (k v : SSAValue) :
    List (SSAValue × SSAValue) :=
  (k, v) :: m

/-- Bookkeeping state of one walk: the mapping from original SSA values to
their replacements (rewriter.py, class OperandUpdater). -/
structure OperandUpdater where
  result_mapping : List (SSAValue × SSAValue)

/-- Bookkeep the changes made by a rewrite action matching on old_op: nothing
is recorded for a zero-result operation, the result counts are asserted equal
otherwise, and each original result is mapped to the positionally paired new
result (rewriter.py, OperandUpdater.bookkeep_results). -/
def OperandUpdater.bookkeep_results (u : OperandUpdater) (old_op : Operation)
    (action : RewriteAction) : Except PyError OperandUpdater :=
  if old_op.results.length = 0 then
    .ok u
  else if old_op.results.length = action.new_results.length then
    .ok ⟨(old_op.results.zip action.new_results).foldl
      (fun m p => dictInsert m p.1 p.2) u.result_mapping⟩
  else
    .error .assertionError

/-- Get the updated value, if it exists, or return the same one
(rewriter.py, OperandUpdater.get_new_value). -/
def OperandUpdater.get_new_value (u : OperandUpdater) (value : SSAValue) :
    SSAValue :=
  (dictGet u.result_mapping value).getD value

/-- Get the updated operands of an operation (rewriter.py,
OperandUpdater.get_new_operands). -/
def OperandUpdater.get_new_operands (u : OperandUpdater) (op : Operation) :
    List SSAValue :=
  op.operands.map u.get_new_value

/-- Update the operand list of an operation with the new operands; the Python
code mutates the operation in place, the model returns the updated node
(rewriter.py, OperandUpdater.update_operands). -/
def OperandUpdater.update_operands (u : OperandUpdater) (op : Operation) :
    Operation :=
  .mk op.name (u.get_new_operands op) op.results op.attributes op.regions

/-- The walker configuration: the pattern to apply and the traversal-order
flag (rewriter.py, class PatternRewriteWalker). The bookkeeping updater, which
the Python class holds as mutable state, is threaded explicitly through the
model as part of the walk state. -/
structure PatternRewriteWalker where
  pat : RewritePattern
  walk_regions_first : Bool

/-- The mutable state of one walk: the operand updater, plus an observation
trace recording the kind name of every operation offered to the pattern, in
invocation order. The trace is pure instrumentation (it is appended to and
never read), supporting the traversal-order property of the design document,
which observes the sequence of operation kinds the pattern was offered. -/
structure WalkState where
  updater : OperandUpdater
  trace : List String

/-- Type of the recursive rewrite procedure applied at one operation. -/
def RewriteFn :=
  WalkState → Operation → Except PyError (List Operation × WalkState)

/-- Apply the rewrite procedure to each operation of a list in order and
concatenate the replacement sequences; this models both the new_ops loop of
rewrite_op (new_ops.extend) and the per-block loop of rewrite_op_regions
(new_block.add_ops). -/
def rewriteOpList (rw : RewriteFn) :
    WalkState → List Operation → Except PyError (List Operation × WalkState)
  | st, [] => .ok ([], st)
  | st, o :: rest => do
    let (ops1, st1) ← rw st o
    let (ops2, st2) ← rewriteOpList rw st1 rest
    .ok (ops1 ++ ops2, st2)

/-- Rebuild each block of a region: a brand-new block is constructed empty
(`Block()` in rewriter.py takes no arguments, so the argument values of the
old block are not carried over) and populated with the concatenated rewrites
of the old operations in order. -/
def rewriteBlockList (rw : RewriteFn) :
    WalkState → List Block → Except PyError (List Block × WalkState)
  | st, [] => .ok ([], st)
  | st, b :: rest => do
    let (newOps, st1) ← rewriteOpList rw st b.ops
    let (newBlocks, st2) ← rewriteBlockList rw st1 rest
    .ok (Block.mk [] newOps :: newBlocks, st2)

/-- Rebuild each region of an operation as a brand-new region populated with
the rebuilt blocks in order. -/
def rewriteRegionList (rw : RewriteFn) :
    WalkState → List Region → Except PyError (List Region × WalkState)
  | st, [] => .ok ([], st)
  | st, r :: rest => do
    let (newBlocks, st1) ← rewriteBlockList rw st r.blocks
    let (newRegions, st2) ← rewriteRegionList rw st1 rest
    .ok (Region.mk newBlocks :: newRegions, st2)

/-- Rewrite the regions of an operation and replace its region list wholesale
with the newly built regions (rewriter.py,
PatternRewriteWalker.rewrite_op_regions); the recursive rewrite of the
operations inside is supplied as the parameter rw. -/
def rewrite_op_regions (rw : RewriteFn) (st : WalkState) (op : Operation) :
    Except PyError (Operation × WalkState) := do
  let (newRegions, st1) ← rewriteRegionList rw st op.regions
  .ok (.mk op.name op.operands op.results op.attributes newRegions, st1)

/-- One step of rewrite_op, with the recursion at smaller fuel supplied as
rw: walk the regions first if configured, compute the live operands and offer
the operation to the pattern; on a match, bookkeep the result substitution
and rewrite the new operations recursively, concatenating; on no match,
update the operands in place, walk the regions if not yet done, and return
the single surviving operation (rewriter.py, PatternRewriteWalker.rewrite_op). -/
def rewrite_op_step (w : PatternRewriteWalker) (rw : RewriteFn) :
    RewriteFn := fun st op => do
  let (op1, st1) ←
    if w.walk_regions_first then rewrite_op_regions rw st op
    else Except.ok (op, st)
  let live := st1.updater.get_new_operands op1
  let st2 : WalkState := ⟨st1.updater, st1.trace ++ [op1.name]⟩
  match w.pat op1 live with
  | some action => do
    let u ← st2.updater.bookkeep_results op1 action
    rewriteOpList rw ⟨u, st2.trace⟩ action.new_ops
  | none => do
    let op2 := st2.updater.update_operands op1
    let (op3, st3) ←
      if w.walk_regions_first then Except.ok (op2, st2)
      else rewrite_op_regions rw st2 op2
    .ok ([op3], st3)

/-- Rewrite an operation along with its regions; the fuel bounds the depth of
the recursion, which in Python is unbounded call-stack recursion. -/
def PatternRewriteWalker.rewrite_op (w : PatternRewriteWalker) :
    Nat → RewriteFn
  | 0 => fun _ _ => .error .fuelOut
  | fuel + 1 => rewrite_op_step w (w.rewrite_op fuel)

/-- Rewrite an entire module operation (rewriter.py,
PatternRewriteWalker.rewrite_module): run rewrite_op on the module; when the
result has length one the code reads new_ops[1], an index one past the end,
so the model returns IndexError there exactly as Python does; a result of any
other length, or a single result of a non-module kind, raises the contract
exception. -/
def PatternRewriteWalker.rewrite_module (w : PatternRewriteWalker)
    (fuel : Nat) (st : WalkState) (op : Operation) :
    Except PyError (Operation × WalkState) := do
  let (new_ops, st1) ← w.rewrite_op fuel st op
  if new_ops.length = 1 then
    match new_ops.get? 1 with
    | none => Except.error .indexError
    | some res_op =>
      if res_op.name = ModuleOpName then
        Except.ok (res_op, st1)
      else
        Except.error (.exception
          "Rewrite pattern did not rewrite a module into another module.")
  else
    Except.error (.exception
      "Rewrite pattern did not rewrite a module into another module.")

/-- A Python dataclass field default factory as the generated initializer
sees it: either a genuinely callable object, or a plain non-callable value.
Calling a non-callable value raises TypeError. -/
inductive PyDefaultFactory (α : Type) where
  | callable (f : Unit → α)
  | plainValue (v : α)

/-- Invoke a default factory as the generated dataclass initializer does. -/
def PyDefaultFactory.call : PyDefaultFactory α → Except PyError α
  | .callable f => .ok (f ())
  | .plainValue _ => .error .typeError

/-- The default factory of the result_mapping field. The source writes
`field(default_factory=dict())`: the expression `dict()` is evaluated once at
class definition time and yields an empty dict instance, which is then stored
as the factory; the stored object is not callable. -/
def result_mapping_default_factory :
    PyDefaultFactory (List (SSAValue × SSAValue)) :=
  .plainValue []

/-- Default construction of an OperandUpdater, as the generated dataclass
initializer performs it: call the default factory of result_mapping. -/
def OperandUpdater.construct : Except PyError OperandUpdater := do
  let m ← result_mapping_default_factory.call
  .ok ⟨m⟩

/-- Construction of a PatternRewriteWalker: the _updater field is declared
with init=False and default_factory=OperandUpdater, so the generated
initializer always calls the OperandUpdater constructor; no caller can pass
an updater of their own through the constructor. -/
def PatternRewriteWalker.construct (p : RewritePattern)
    (walk_regions_first : Bool) :
    Except PyError (PatternRewriteWalker × OperandUpdater) := do
  let u ← OperandUpdater.construct
  .ok (⟨p, walk_regions_first⟩, u)

/-! Concrete inputs used to exercise the definitions. -/

/-- A pattern that never matches. -/
def neverMatch : RewritePattern := fun _ _ => none

/-- The walk state at the start of a walk: empty mapping, empty trace. -/
def initState : WalkState := ⟨⟨[]⟩, []⟩

/-- A trivial well-formed module: one region, one empty block. -/
def c1Module : Operation := .mk ModuleOpName [] [] [] [.mk [.mk [] []]]

def c3Arg : SSAValue := ⟨3, "i32"⟩

/-- An operation owning one region with one block that carries one block
argument and no operations. -/
def c3Op : Operation := .mk "func.func" [] [] [] [.mk [.mk [c3Arg] []]]

/-- The rebuild of c3Op: the block argument is gone. -/
def c3Out : Operation := .mk "func.func" [] [] [] [.mk [.mk [] []]]

def c4Arg : SSAValue := ⟨4, "i32"⟩

/-- A well-formed module holding a function whose entry block carries one
block argument. -/
def c4Module : Operation :=
  .mk ModuleOpName [] [] [] [.mk [.mk []
    [.mk "func.func" [] [] [] [.mk [.mk [c4Arg] []]]]]]

/-- What the walk of c4Module under a never-matching pattern produces: the
same structure except that the inner block argument has been dropped. -/
def c4Result : Operation :=
  .mk ModuleOpName [] [] [] [.mk [.mk []
    [.mk "func.func" [] [] [] [.mk [.mk [] []]]]]]

def c5Res : SSAValue := ⟨50, "i32"⟩

def c5A : SSAValue := ⟨51, "i32"⟩

def c5B : SSAValue := ⟨52, "i32"⟩

/-- An operation with exactly one result. -/
def c5Op : Operation := .mk "arith.addi" [] [c5Res] [] []

/-- A rewrite action carrying two replacement results, mismatching the one
result of c5Op. -/
def c5Action : RewriteAction := ⟨[], [c5A, c5B]⟩

/-- A walker whose pattern matches c5Op and requests the mismatched action. -/
def c5Walker : PatternRewriteWalker :=
  ⟨fun o _ => if o.name = "arith.addi" then some c5Action else none, false⟩

def c6A : SSAValue := ⟨60, "i32"⟩

def c6B : SSAValue := ⟨61, "i32"⟩

def c6C : SSAValue := ⟨62, "i32"⟩

/-- A mapping holding the chain c6A to c6B and c6B to c6C. -/
def c6Updater : OperandUpdater := ⟨[(c6A, c6B), (c6B, c6C)]⟩

def c7ResA : SSAValue := ⟨70, "i32"⟩

def c7ResB : SSAValue := ⟨71, "i32"⟩

/-- The replacement operation produced for c7Op. -/
def c7OpB : Operation := .mk "b7" [] [c7ResB] [] []

def c7Op : Operation := .mk "a7" [] [c7ResA] [] []

/-- The action replacing c7Op with c7OpB, whose result stands in for the one
result of c7Op. -/
def c7Action : RewriteAction := ⟨[c7OpB], [c7ResB]⟩

/-- A walker whose pattern matches operations of kind a7 only. -/
def c7Walker : PatternRewriteWalker :=
  ⟨fun o _ => if o.name = "a7" then some c7Action else none, false⟩

/-- A nested operation of kind oname owning one region with one block holding
a single operation of kind iname. -/
def nestedPair (oname iname : String) : Operation :=
  .mk oname [] [] [] [.mk [.mk [] [.mk iname [] [] [] []]]]

def c9V0 : SSAValue := ⟨90, "i32"⟩

def c9V1 : SSAValue := ⟨91, "i32"⟩

def c9V2 : SSAValue := ⟨92, "i32"⟩

/-- A walk state that already maps c9V0 to c9V1. -/
def c9State : WalkState := ⟨⟨[(c9V0, c9V1)]⟩, []⟩

/-- An operation consuming c9V0, with one result, an attribute, no regions. -/
def c9Op : Operation := .mk "func.return" [c9V0] [c9V2] [("k", "w")] []

/-- An operation with zero results. -/
def c10Op : Operation := .mk "scf.yield" [] [] [] []

/-- A rewrite action with a non-empty replacement-result list. -/
def c10Action : RewriteAction := ⟨[], [⟨100, "i32"⟩]⟩

def c10Updater : OperandUpdater := ⟨[(c6A, c6B)]⟩

/-! Theorems. -/

/-- C2: for every pattern p, constructing PatternRewriteWalker(p) without
supplying an explicit bookkeeping updater raises at construction time: the
result_mapping field declares field(default_factory=dict()), storing an empty
dict instance rather than a callable as the factory, so the default
construction of OperandUpdater raises TypeError, and the generated walker
initializer (whose _updater field has init=False) always runs it. -/
theorem walker_default_construction_type_error (p : RewritePattern)
    (b : Bool) :
    PatternRewriteWalker.construct p b = .error .typeError := rfl

/-- C10: for every matched operation with zero results and every rewrite
action, bookkeep_results records nothing and never fails, even when the
action carries a non-empty replacement-result list: the count check is
skipped entirely for zero-result operations. -/
theorem bookkeep_results_zero_results_skipped
    (u : OperandUpdater) (op : Operation) (a : RewriteAction)
    (h : op.results = []) :
    u.bookkeep_results op a = .ok u := by
  simp [OperandUpdater.bookkeep_results, h]

/-- Witness for C10: a zero-result operation together with an action whose
replacement-result list is non-empty is silently accepted. -/
theorem bookkeep_results_zero_results_skipped_witness :
    c10Op.results = [] ∧ c10Action.new_results ≠ [] ∧
      c10Updater.bookkeep_results c10Op c10Action = .ok c10Updater :=
  ⟨rfl, by decide,
    bookkeep_results_zero_results_skipped c10Updater c10Op c10Action rfl⟩

/-- C6: get_new_value returns the recorded replacement when the value is a
key of the substitution map and the value itself otherwise, in exactly one
lookup hop: a recorded binding of a to b is answered with b even when b is
itself a key of the map; and get_new_operands applies this lookup to every
operand, preserving operand order and arity. -/
theorem get_new_value_single_hop_and_operands :
    (∀ (u : OperandUpdater) (v r : SSAValue),
      dictGet u.result_mapping v = some r → u.get_new_value v = r) ∧
    (∀ (u : OperandUpdater) (v : SSAValue),
      dictGet u.result_mapping v = none → u.get_new_value v = v) ∧
    (∀ (u : OperandUpdater) (a b c : SSAValue),
      dictGet u.result_mapping a = some b →
        dictGet u.result_mapping b = some c → u.get_new_value a = b) ∧
    (∀ (u : OperandUpdater) (op : Operation),
      (u.get_new_operands op).length = op.operands.length ∧
      ∀ i : Nat, (u.get_new_operands op)[i]?
        = (op.operands[i]?).map u.get_new_value) := by
  refine ⟨?_, ?_, ?_, ?_⟩
  · intro u v r h
    simp [OperandUpdater.get_new_value, h]
  · intro u v h
    simp [OperandUpdater.get_new_value, h]
  · intro u a b c hab _
    simp [OperandUpdater.get_new_value, hab]
  · intro u op
    refine ⟨by simp [OperandUpdater.get_new_operands], fun i => ?_⟩
    simp [OperandUpdater.get_new_operands, List.getElem?_map]

/-- Witness for C6: in the chained mapping c6A to c6B to c6C, looking up c6A
answers c6B, not c6C. -/
theorem get_new_value_single_hop_witness :
    c6Updater.get_new_value c6A = c6B :=
  get_new_value_single_hop_and_operands.2.2.1 c6Updater c6A c6B c6C rfl rfl

/-- Reduction of bind over a successful Except computation. -/
theorem except_bind_ok {ε α β : Type} (a : α) (f : α → Except ε β) :
    (Except.ok a : Except ε α) >>= f = f a := rfl

/-- Reduction of bind over a failed Except computation. -/
theorem except_bind_error {ε α β : Type} (e : ε) (f : α → Except ε β) :
    (Except.error e : Except ε α) >>= f = Except.error e := rfl

/-- C5: for every matched operation with at least one result and every
rewrite action whose replacement-result list has a different length,
recording the substitution fails fatally with an assertion error, and the
walk step at that operation aborts with the same error, whichever traversal
order is configured (the operation offered to the pattern is the outcome op1
of the region pre-pass, which is the operation itself when
walk_regions_first is false). -/
theorem bookkeep_results_count_mismatch_aborts
    (w : PatternRewriteWalker) (fuel : Nat) (st : WalkState)
    (op op1 : Operation) (st1 : WalkState) (a : RewriteAction)
    (hpre : (if w.walk_regions_first then
        rewrite_op_regions (w.rewrite_op fuel) st op
      else Except.ok (op, st)) = .ok (op1, st1))
    (hk : 0 < op1.results.length)
    (hne : a.new_results.length ≠ op1.results.length)
    (hp : w.pat op1 (st1.updater.get_new_operands op1) = some a) :
    st1.updater.bookkeep_results op1 a = .error .assertionError ∧
    w.rewrite_op (fuel + 1) st op = .error .assertionError := by
  have h0 : ¬ op1.results.length = 0 := by omega
  have h1 : ¬ op1.results.length = a.new_results.length :=
    fun hh => hne hh.symm
  have hbk : st1.updater.bookkeep_results op1 a
      = .error .assertionError := by
    simp [OperandUpdater.bookkeep_results, h0, h1]
  refine ⟨hbk, ?_⟩
  show rewrite_op_step w (w.rewrite_op fuel) st op = .error .assertionError
  rw [rewrite_op_step]
  cases hwr : w.walk_regions_first with
  | false =>
    rw [hwr] at hpre
    simp at hpre
    obtain ⟨h1, h2⟩ := hpre
    subst h1
    subst h2
    simp [hwr, hp, hbk, except_bind_ok, except_bind_error]
  | true =>
    rw [hwr] at hpre
    simp only [if_true] at hpre
    simp [hwr, hpre, hp, hbk, except_bind_ok, except_bind_error]

/-- Witness for C5: a one-result operation matched by an action with two
replacement results makes both the bookkeeping and the walk fail. -/
theorem bookkeep_results_count_mismatch_aborts_witness :
    initState.updater.bookkeep_results c5Op c5Action
      = .error .assertionError ∧
    c5Walker.rewrite_op 1 initState c5Op = .error .assertionError :=
  bookkeep_results_count_mismatch_aborts c5Walker 0 initState c5Op c5Op
    initState c5Action rfl (by decide) (by decide) rfl

/-- C1: the entry point never returns the rewritten module. Whenever
rewrite_op yields a sequence of exactly one operation, of module kind or not,
rewrite_module reads new_ops[1], an index one past the end of the singleton
list, and raises IndexError instead of returning the operation; the success
case the claim describes is unreachable. -/
theorem rewrite_module_indexes_past_singleton
    (w : PatternRewriteWalker) (fuel : Nat) (st : WalkState)
    (op res : Operation) (st1 : WalkState)
    (h : w.rewrite_op fuel st op = .ok ([res], st1)) :
    w.rewrite_module fuel st op = .error .indexError := by
  unfold PatternRewriteWalker.rewrite_module
  rw [h]
  rfl

/-- Witness for C1: a trivial module under a never-matching pattern is
rewritten to exactly itself, and rewrite_module raises IndexError on it. -/
theorem rewrite_module_indexes_past_singleton_witness :
    (PatternRewriteWalker.mk neverMatch false).rewrite_module 5 initState
      c1Module = .error .indexError :=
  rewrite_module_indexes_past_singleton
    (PatternRewriteWalker.mk neverMatch false) 5 initState c1Module c1Module
    ⟨⟨[]⟩, [ModuleOpName]⟩ rfl

/-- Every block produced by rewriteBlockList carries an empty argument list:
the rebuild constructs each new block with Block(), never copying the
arguments of the old block. -/
theorem rewriteBlockList_args_nil (rw : RewriteFn) (bs : List Block) :
    ∀ (st : WalkState) (res : List Block) (st1 : WalkState),
      rewriteBlockList rw st bs = .ok (res, st1) → ∀ b ∈ res, b.args = [] := by
  induction bs with
  | nil =>
    intro st res st1 h b hb
    simp [rewriteBlockList] at h
    rw [h.1] at hb
    simp at hb
  | cons blk rest ih =>
    intro st res st1 h b hb
    cases h1 : rewriteOpList rw st blk.ops with
    | error e =>
      simp [rewriteBlockList, h1, except_bind_error] at h
    | ok pr =>
      obtain ⟨newOps, st2⟩ := pr
      cases h2 : rewriteBlockList rw st2 rest with
      | error e =>
        simp [rewriteBlockList, h1, h2, except_bind_ok,
          except_bind_error] at h
      | ok pr2 =>
        obtain ⟨newBlocks, st3⟩ := pr2
        simp [rewriteBlockList, h1, h2, except_bind_ok] at h
        obtain ⟨hres, -⟩ := h
        rw [← hres] at hb
        rcases List.mem_cons.mp hb with hhead | htail
        · rw [hhead]
          rfl
        · exact ih st2 newBlocks st3 h2 b htail

/-- Every block of every region produced by rewriteRegionList carries an
empty argument list. -/
theorem rewriteRegionList_args_nil (rw : RewriteFn) (rs : List Region) :
    ∀ (st : WalkState) (res : List Region) (st1 : WalkState),
      rewriteRegionList rw st rs = .ok (res, st1) →
        ∀ r ∈ res, ∀ b ∈ r.blocks, b.args = [] := by
  induction rs with
  | nil =>
    intro st res st1 h r hr
    simp [rewriteRegionList] at h
    rw [h.1] at hr
    simp at hr
  | cons reg rest ih =>
    intro st res st1 h r hr
    cases h1 : rewriteBlockList rw st reg.blocks with
    | error e =>
      simp [rewriteRegionList, h1, except_bind_error] at h
    | ok pr =>
      obtain ⟨newBlocks, st2⟩ := pr
      cases h2 : rewriteRegionList rw st2 rest with
      | error e =>
        simp [rewriteRegionList, h1, h2, except_bind_ok,
          except_bind_error] at h
      | ok pr2 =>
        obtain ⟨newRegions, st3⟩ := pr2
        simp [rewriteRegionList, h1, h2, except_bind_ok] at h
        obtain ⟨hres, -⟩ := h
        rw [← hres] at hr
        rcases List.mem_cons.mp hr with hhead | htail
        · rw [hhead]
          exact fun b hb =>
            rewriteBlockList_args_nil rw reg.blocks st newBlocks st2 h1 b hb
        · exact ih st2 newRegions st3 h2 r htail

/-- C3: the claim fails on the code. rewrite_op_regions does not preserve
block arguments: every newly built block is constructed with Block(), so
every block of every rebuilt region carries the empty argument list, whatever
arguments the corresponding old block carried. -/
theorem rewrite_op_regions_drops_block_args
    (rw : RewriteFn) (st : WalkState) (op op1 : Operation) (st1 : WalkState)
    (h : rewrite_op_regions rw st op = .ok (op1, st1)) :
    ∀ r ∈ op1.regions, ∀ b ∈ r.blocks, b.args = [] := by
  cases h1 : rewriteRegionList rw st op.regions with
  | error e =>
    simp [rewrite_op_regions, h1, except_bind_error] at h
  | ok pr =>
    obtain ⟨regs, st2⟩ := pr
    simp [rewrite_op_regions, h1, except_bind_ok] at h
    obtain ⟨hop, -⟩ := h
    intro r hr
    rw [← hop] at hr
    exact rewriteRegionList_args_nil rw op.regions st regs st2 h1 r
      (by simpa [Operation.regions] using hr)

/-- Witness for C3: the rebuild of an operation whose single block carries
one block argument yields blocks with no arguments at all. -/
theorem rewrite_op_regions_drops_block_args_witness :
    c3Op.regions = [Region.mk [Block.mk [c3Arg] []]] ∧
    (∀ r ∈ c3Out.regions, ∀ b ∈ r.blocks, b.args = []) :=
  ⟨rfl, rewrite_op_regions_drops_block_args
    ((PatternRewriteWalker.mk neverMatch false).rewrite_op 2) initState
    c3Op c3Out initState rfl⟩

/-- C4: the claim fails on the code. Walking a well-formed module whose
inner block carries a block argument with a pattern that never matches
produces an output that is not structurally equal to the input: the block
argument has been dropped by the region rebuild. -/
theorem noop_pattern_walk_not_structurally_equal :
    (PatternRewriteWalker.mk neverMatch false).rewrite_op 5 initState
        c4Module
      = .ok ([c4Result], ⟨⟨[]⟩, [ModuleOpName, "func.func"]⟩) ∧
    c4Result ≠ c4Module := by
  refine ⟨rfl, ?_⟩
  intro hcontra
  simp [c4Result, c4Module] at hcontra

/-- C7: on a match, rewrite_op first records the substitution from the
original results of the operation to the replacement results of the action,
then invokes itself recursively on each new operation of the action in order
at smaller fuel, returning the concatenation of the recursive results; the
second conjunct exhibits the concatenation shape of the recursive pass. -/
theorem rewrite_op_match_bookkeeps_then_recurses
    (w : PatternRewriteWalker) (fuel : Nat) (st : WalkState)
    (op op1 : Operation) (st1 : WalkState) (a : RewriteAction)
    (u : OperandUpdater)
    (hpre : (if w.walk_regions_first then
        rewrite_op_regions (w.rewrite_op fuel) st op
      else Except.ok (op, st)) = .ok (op1, st1))
    (hp : w.pat op1 (st1.updater.get_new_operands op1) = some a)
    (hbk : st1.updater.bookkeep_results op1 a = .ok u) :
    w.rewrite_op (fuel + 1) st op
      = rewriteOpList (w.rewrite_op fuel) ⟨u, st1.trace ++ [op1.name]⟩
          a.new_ops ∧
    ∀ (rw : RewriteFn) (st0 : WalkState) (o : Operation)
        (rest : List Operation),
      rewriteOpList rw st0 (o :: rest)
        = (rw st0 o).bind (fun p1 =>
            (rewriteOpList rw p1.2 rest).bind (fun p2 =>
              Except.ok (p1.1 ++ p2.1, p2.2))) := by
  constructor
  · show rewrite_op_step w (w.rewrite_op fuel) st op = _
    rw [rewrite_op_step]
    cases hwr : w.walk_regions_first with
    | false =>
      rw [hwr] at hpre
      simp at hpre
      obtain ⟨h1, h2⟩ := hpre
      subst h1
      subst h2
      simp [hwr, hp, hbk, except_bind_ok]
    | true =>
      rw [hwr] at hpre
      simp only [if_true] at hpre
      simp [hwr, hpre, hp, hbk, except_bind_ok]
  · intro rw st0 o rest
    rfl

/-- Witness for C7: the matched operation c7Op is replaced by c7OpB after the
substitution c7ResA to c7ResB has been recorded, and the replacement is
itself offered to the pattern at smaller fuel. -/
theorem rewrite_op_match_bookkeeps_then_recurses_witness :
    c7Walker.rewrite_op 2 initState c7Op
      = rewriteOpList (c7Walker.rewrite_op 1)
          ⟨⟨[(c7ResA, c7ResB)]⟩, ["a7"]⟩ c7Action.new_ops ∧
    ∀ (rw : RewriteFn) (st0 : WalkState) (o : Operation)
        (rest : List Operation),
      rewriteOpList rw st0 (o :: rest)
        = (rw st0 o).bind (fun p1 =>
            (rewriteOpList rw p1.2 rest).bind (fun p2 =>
              Except.ok (p1.1 ++ p2.1, p2.2))) :=
  rewrite_op_match_bookkeeps_then_recurses c7Walker 1 initState c7Op c7Op
    initState c7Action ⟨[(c7ResA, c7ResB)]⟩ rfl rfl rfl

/-- C8: with walk_regions_first true the walker rebuilds the owned regions
before offering the operation to the pattern, and with false it offers the
operation first, so for a nested pair of rewrite targets the observable
pattern-invocation order is innermost-first respectively outermost-first. -/
theorem walk_regions_first_orders_invocations
    (p : RewritePattern) (oname iname : String)
    (hp : ∀ o l, p o l = none) :
    ((PatternRewriteWalker.mk p true).rewrite_op 3 initState
        (nestedPair oname iname)).map (fun r => r.2.trace)
      = .ok [iname, oname] ∧
    ((PatternRewriteWalker.mk p false).rewrite_op 3 initState
        (nestedPair oname iname)).map (fun r => r.2.trace)
      = .ok [oname, iname] := by
  constructor <;>
    simp [PatternRewriteWalker.rewrite_op, rewrite_op_step,
      rewrite_op_regions, rewriteRegionList, rewriteBlockList, rewriteOpList,
      hp, nestedPair, initState, OperandUpdater.get_new_operands,
      OperandUpdater.update_operands, Operation.name, Operation.operands,
      Operation.results, Operation.attributes, Operation.regions,
      Region.blocks, Block.args, Block.ops, except_bind_ok,
      except_bind_error, Except.map]

/-- Witness for C8: under a concrete never-matching pattern the two traces
are the two opposite orders. -/
theorem walk_regions_first_orders_invocations_witness :
    ((PatternRewriteWalker.mk neverMatch true).rewrite_op 3 initState
        (nestedPair "outer" "inner")).map (fun r => r.2.trace)
      = .ok ["inner", "outer"] ∧
    ((PatternRewriteWalker.mk neverMatch false).rewrite_op 3 initState
        (nestedPair "outer" "inner")).map (fun r => r.2.trace)
      = .ok ["outer", "inner"] :=
  walk_regions_first_orders_invocations neverMatch "outer" "inner"
    (fun _ _ => rfl)

/-- C9: on a no-match, a successful rewrite_op returns exactly the
single-element sequence holding the surviving operation: same kind name, same
result values, same attributes, with the operand list rebound to the live
values and only the region list rebuilt; op1 is the outcome of the region
pre-pass (the operation itself when walk_regions_first is false), and the
pre-pass itself already preserves name, results and attributes. -/
theorem rewrite_op_no_match_preserves_identity
    (w : PatternRewriteWalker) (fuel : Nat) (st : WalkState)
    (op op1 : Operation) (st1 : WalkState) (res : List Operation)
    (st2 : WalkState)
    (hpre : (if w.walk_regions_first then
        rewrite_op_regions (w.rewrite_op fuel) st op
      else Except.ok (op, st)) = .ok (op1, st1))
    (hp : w.pat op1 (st1.updater.get_new_operands op1) = none)
    (hok : w.rewrite_op (fuel + 1) st op = .ok (res, st2)) :
    op1.name = op.name ∧ op1.results = op.results ∧
    op1.attributes = op.attributes ∧
    ∃ newRegions, res
      = [Operation.mk op.name (st1.updater.get_new_operands op1)
          op.results op.attributes newRegions] := by
  have hkeep : op1.name = op.name ∧ op1.results = op.results ∧
      op1.attributes = op.attributes := by
    cases hwr : w.walk_regions_first with
    | false =>
      rw [hwr] at hpre
      simp at hpre
      rw [← hpre.1]
      exact ⟨rfl, rfl, rfl⟩
    | true =>
      rw [hwr] at hpre
      simp only [if_true] at hpre
      cases h2 : rewriteRegionList (w.rewrite_op fuel) st op.regions with
      | error e =>
        rw [rewrite_op_regions] at hpre
        simp [h2, except_bind_error] at hpre
      | ok pr =>
        obtain ⟨regs, st3⟩ := pr
        rw [rewrite_op_regions] at hpre
        simp [h2, except_bind_ok] at hpre
        rw [← hpre.1]
        exact ⟨rfl, rfl, rfl⟩
  refine ⟨hkeep.1, hkeep.2.1, hkeep.2.2, ?_⟩
  have hok1 : rewrite_op_step w (w.rewrite_op fuel) st op
      = .ok (res, st2) := hok
  rw [rewrite_op_step] at hok1
  cases hwr : w.walk_regions_first with
  | true =>
    rw [hwr] at hpre
    simp only [if_true] at hpre
    simp [hwr, hpre, hp, except_bind_ok] at hok1
    refine ⟨op1.regions, ?_⟩
    rw [← hok1.1]
    simp [OperandUpdater.update_operands, hkeep.1, hkeep.2.1, hkeep.2.2]
  | false =>
    rw [hwr] at hpre
    simp at hpre
    obtain ⟨h1, h2⟩ := hpre
    subst h1
    subst h2
    simp [hwr, hp, except_bind_ok] at hok1
    rw [rewrite_op_regions] at hok1
    cases h3 : rewriteRegionList (w.rewrite_op fuel)
        ⟨st.updater, st.trace ++ [op.name]⟩
        (st.updater.update_operands op).regions with
    | error e =>
      simp [h3, except_bind_error] at hok1
    | ok pr =>
      obtain ⟨regs, st3⟩ := pr
      simp [h3, except_bind_ok] at hok1
      refine ⟨regs, ?_⟩
      rw [← hok1.1]
      simp [OperandUpdater.update_operands, Operation.name,
        Operation.operands, Operation.results, Operation.attributes]

/-- Witness for C9: running a never-matching walk on an operation consuming a
value that the updater already maps elsewhere survives as itself with the
operand rebound and everything else unchanged. -/
theorem rewrite_op_no_match_preserves_identity_witness :
    c9Op.name = c9Op.name ∧ c9Op.results = c9Op.results ∧
    c9Op.attributes = c9Op.attributes ∧
    ∃ newRegions,
      [Operation.mk "func.return" [c9V1] [c9V2] [("k", "w")] []]
        = [Operation.mk "func.return" [c9V1] [c9V2] [("k", "w")]
            newRegions] :=
  rewrite_op_no_match_preserves_identity
    (PatternRewriteWalker.mk neverMatch false) 0 c9State c9Op c9Op c9State
    [Operation.mk "func.return" [c9V1] [c9V2] [("k", "w")] []]
    ⟨⟨[(c9V0, c9V1)]⟩, ["func.return"]⟩ rfl rfl rfl

end Xdsl
